import Mathlib

/-!
Verification development for the NEM_data ingestion pipeline.

The definitions below are a shallow embedding of the pipeline scripts:
  * `scripts/TradingIS_price_imp.py` — the main "fast current price update"
    pipeline: `download_file_fast`, `process_file_fast`,
    `write_batch_to_parquet`, and the phased main program (database setup,
    listing, date filter, download, process, tracker update).
  * `scripts/Scrap previous years.py` — `calculate_period_id` and its
    vectorized PERIODID computation.

Modelling conventions:
  * Python strings are Lean `String`s; CSV rows are `List String` (the
    `csv.reader` field split is taken as given).
  * `pd.to_datetime(..., errors='coerce')` is modelled by a strict parser for
    the `YYYY/MM/DD HH:MM:SS` settlement-date format used by these reports;
    failure is `none` (NaT).
  * `pd.to_numeric(..., errors='coerce')` is modelled by `parseDecimal`,
    which recognizes optionally-signed decimal literals and returns the
    parsed literal; failure is `none` (NaN).  The pipeline only ever uses
    parse success/failure and truncation to integer, never float arithmetic.
  * The filesystem/network per candidate file is an explicit environment
    (`FileEnv`): whether the download succeeded, which CSV rows the archive
    contains, and whether the parquet write raises.
  * Loops whose iterations are independent are written as list
    comprehensions (`filter`/`map`/`flatten`) with the same sequential
    semantics as the source loops.
-/

namespace NEMData

/-- Whitespace characters removed by Python's `str.strip()` (the ones that
occur in this data). -/
def isSpaceChar (c : Char) : Bool :=
  c = ' ' || c = '\t' || c = '\n' || c = '\r'

/-- Models `value.replace('"', '').strip()` applied to every captured CSV
field in `process_file_fast`: drop all double quotes, then strip surrounding
whitespace. -/
def clean (s : String) : String :=
  let noQuotes := s.data.filter (fun c => c ≠ '"')
  ⟨((noQuotes.dropWhile isSpaceChar).reverse.dropWhile isSpaceChar).reverse⟩

/-- A successfully parsed decimal literal, the model of a non-NaN result of
`pd.to_numeric(..., errors='coerce')`.  Only parse success/failure and
truncation toward zero are consumed by the pipeline. -/
structure DecimalLit where
  neg : Bool
  intPart : Nat
  fracDigits : List Nat
deriving Repr, DecidableEq

/-- Numeric value of a digit character. -/
def digitVal (c : Char) : Nat := c.toNat - 48

/-- Value of a digit string read in base 10. -/
def digitsVal (cs : List Char) : Nat :=
  cs.foldl (fun a c => a * 10 + digitVal c) 0

/-- Models `pd.to_numeric(x, errors='coerce')` on a single cleaned field:
an optional sign, integer digits, and an optional fractional part; anything
else (for example `"N/A"` or the empty string) coerces to `none` (NaN)
rather than raising. -/
def parseDecimal (s : String) : Option DecimalLit :=
  let core : Bool → List Char → Option DecimalLit := fun sign cs =>
    let ip := cs.takeWhile Char.isDigit
    let rest := cs.dropWhile Char.isDigit
    match rest with
    | [] => if ip = [] then none else some ⟨sign, digitsVal ip, []⟩
    | '.' :: fp =>
      if fp.all Char.isDigit && !(ip = [] && fp = []) then
        some ⟨sign, digitsVal ip, fp.map digitVal⟩
      else none
    | _ => none
  match s.data with
  | '-' :: cs => core true cs
  | '+' :: cs => core false cs
  | cs => core false cs

/-- Truncation toward zero of a parsed decimal, the value produced by the
float-to-integer cast in `astype("int16")` before the 16-bit wrap. -/
def DecimalLit.trunc (d : DecimalLit) : Int :=
  if d.neg then -(d.intPart : Int) else (d.intPart : Int)

/-- Wrap an integer into the signed 16-bit range, modelling the numpy
`int16` storage of the PERIODID column. -/
def toInt16 (n : Int) : Int := (n + 32768) % 65536 - 32768

/-- A parsed settlement timestamp (the model of a non-NaT
`pd.to_datetime` result). -/
structure Timestamp where
  year : Nat
  month : Nat
  day : Nat
  hour : Nat
  minute : Nat
  second : Nat
deriving Repr, DecidableEq

/-- Parse a two-digit group. -/
def d2 (a b : Char) : Option Nat :=
  if a.isDigit && b.isDigit then some (digitVal a * 10 + digitVal b) else none

/-- Models `pd.to_datetime(s, errors='coerce')` on the settlement-date
strings of these reports, which are published as `YYYY/MM/DD HH:MM:SS`;
a string not of that shape (or with out-of-range fields) is NaT = `none`. -/
def parseTimestamp (s : String) : Option Timestamp :=
  match s.data with
  | [y1, y2, y3, y4, '/', m1, m2, '/', a1, a2, ' ', h1, h2, ':', n1, n2, ':', p1, p2] =>
    match d2 y1 y2, d2 y3 y4, d2 m1 m2, d2 a1 a2, d2 h1 h2, d2 n1 n2, d2 p1 p2 with
    | some yh, some yl, some mo, some dy, some hr, some mi, some sc =>
      if 1 ≤ mo && mo ≤ 12 && 1 ≤ dy && dy ≤ 31 && hr < 24 && mi < 60 && sc < 60 then
        some ⟨yh * 100 + yl, mo, dy, hr, mi, sc⟩
      else none
    | _, _, _, _, _, _, _ => none
  | _ => none

/-- Linear sort key of a timestamp, used to model the
`sort_values(['SETTLEMENTDATE', 'REGIONID'])` ordering. -/
def tsKey (t : Timestamp) : Nat :=
  ((((t.year * 13 + t.month) * 32 + t.day) * 24 + t.hour) * 60 + t.minute) * 60 + t.second

/-- From `scripts/Scrap previous years.py`, `calculate_period_id`: the
1-indexed 5-minute interval index of a time of day, with exact midnight
mapped to interval 288 (the final interval of the previous day). -/
def calculate_period_id (hour minute : Nat) : Nat :=
  let total_minutes := hour * 60 + minute
  if total_minutes = 0 then 288
  else (total_minutes - 1) / 5 + 1

/-- From `scripts/Scrap previous years.py`, `process_csv_file` lines
139-144: the vectorized PERIODID computation
`((total_minutes - 1) // 5) + 1` with the midnight rows patched to 288.
Python `//` on the -1 underflow at midnight is floor division, hence
`Int.fdiv`; the patch overwrites that midnight value with 288. -/
def periodid_vectorized (hour minute : Nat) : Int :=
  let total_minutes : Int := hour * 60 + minute
  let raw := (total_minutes - 1).fdiv 5 + 1
  if total_minutes = 0 then 288 else raw

/-- A raw captured TRADING/PRICE row as built by `process_file_fast`
(all fields still strings, plus source-file provenance). -/
structure RawRecord where
  SETTLEMENTDATE : String
  REGIONID : String
  PERIODID : String
  RRP : String
  LASTCHANGED : String
  filename : String
deriving Repr, DecidableEq

/-- A typed row as written to the partitioned parquet dataset by
`write_batch_to_parquet`. -/
structure NormalizedRecord where
  SETTLEMENTDATE : Timestamp
  REGIONID : String
  PERIODID : Int
  RRP : Option DecimalLit
  LASTCHANGED : String
  year : Nat
  month : Nat
deriving Repr, DecidableEq

/-- Build the captured dictionary of `process_file_fast` from a data row
(guarded by `len(row) >= 12`): fields 4, 6, 7, 8 and 11, cleaned. -/
def mkRaw (filename : String) (row : List String) : RawRecord :=
  ⟨clean (row.getD 4 ""), clean (row.getD 6 ""), clean (row.getD 7 ""),
   clean (row.getD 8 ""), clean (row.getD 11 ""), filename⟩

/-- The tag test `row[:3] == ['D', 'TRADING', 'PRICE']` selecting data rows
of the target dataset. -/
def isDataPriceRow (row : List String) : Bool :=
  decide (row.take 3 = ["D", "TRADING", "PRICE"])

/-- The tag test `row[:3] == ['I', 'TRADING', 'PRICE']` selecting the
header row of the target dataset. -/
def isInfoPriceRow (row : List String) : Bool :=
  decide (row.take 3 = ["I", "TRADING", "PRICE"])

/-- One iteration of the row loop in `process_file_fast`.  State: whether a
PRICE header has been seen (`price_header` truthiness) and the data captured
so far.  A header row sets the flag; a data row is captured only when the
flag is set and the row has at least 12 fields; every other row (including
rows of unrelated record types) leaves the state unchanged. -/
def processRow (filename : String) (acc : Bool × List RawRecord)
    (row : List String) : Bool × List RawRecord :=
  if 3 ≤ row.length then
    if isInfoPriceRow row then (true, acc.2)
    else if isDataPriceRow row && acc.1 then
      if 12 ≤ row.length then (acc.1, acc.2 ++ [mkRaw filename row])
      else acc
    else acc
  else acc

/-- Models `process_file_fast` of `scripts/TradingIS_price_imp.py` on the
rows of the archive's report file: scan rows in order, returning every
captured TRADING/PRICE data row (an unreadable archive, modelled by an
empty row list, yields `[]`). -/
def process_file_fast (filename : String) (rows : List (List String)) :
    List RawRecord :=
  (rows.foldl (processRow filename) (false, [])).2

/-- Date-parse phase of `write_batch_to_parquet`:
`pd.to_datetime(errors='coerce')` followed by `dropna(subset=['SETTLEMENTDATE'])`
keeps exactly the rows whose settlement date parses, paired with the parse. -/
def datedRows (batch : List RawRecord) : List (RawRecord × Timestamp) :=
  batch.filterMap (fun r => (parseTimestamp r.SETTLEMENTDATE).map (fun t => (r, t)))

/-- Typed row assembly inside `write_batch_to_parquet`: year/month partition
keys from the timestamp, PERIODID truncated and stored as int16, RRP kept
as a nullable numeric. -/
def normalizeRow (r : RawRecord) (t : Timestamp) (p : DecimalLit)
    (rrp : DecimalLit) : NormalizedRecord :=
  ⟨t, r.REGIONID, toInt16 p.trunc, some rrp, r.LASTCHANGED, t.year, t.month⟩

/-- Row order of `df.sort_values(['SETTLEMENTDATE', 'REGIONID'])`. -/
def rowLE (a b : NormalizedRecord) : Bool :=
  decide (tsKey a.SETTLEMENTDATE < tsKey b.SETTLEMENTDATE ∨
    (tsKey a.SETTLEMENTDATE = tsKey b.SETTLEMENTDATE ∧ a.REGIONID ≤ b.REGIONID))

/-- Insert into a sorted list, keeping earlier-inserted equal keys first. -/
def insertSorted (a : NormalizedRecord) :
    List NormalizedRecord → List NormalizedRecord
  | [] => [a]
  | b :: l => if rowLE a b then a :: b :: l else b :: insertSorted a l

/-- Sort of the batch rows by (SETTLEMENTDATE, REGIONID) before writing. -/
def sortRows (l : List NormalizedRecord) : List NormalizedRecord :=
  l.foldr insertSorted []

/-- Result of a `write_batch_to_parquet` call: the returned count and the
rows appended to the partitioned dataset by the call. -/
structure WriteResult where
  count : Nat
  rows : List NormalizedRecord
deriving Repr, DecidableEq

/-- Models `write_batch_to_parquet` of `scripts/TradingIS_price_imp.py`.
The stages mirror the source lines in order: empty-batch guard;
settlement-date coercion and dropna with empty guard; numeric coercion of
RRP and PERIODID where the `astype("int16")` on a PERIODID column containing
NaN raises, is caught by the function's `except`, and returns 0 with nothing
written; `dropna(subset=['RRP', 'PERIODID'])` with empty guard; sort; the
parquet append itself (whose failure is the `writeRaises` flag, also caught
and turned into a 0 return with nothing durably written). -/
def write_batch_to_parquet (writeRaises : Bool) (batch : List RawRecord) :
    WriteResult :=
  if batch = [] then ⟨0, []⟩
  else
    let dated := datedRows batch
    if dated = [] then ⟨0, []⟩
    else if dated.any (fun rt => (parseDecimal rt.1.PERIODID).isNone) then ⟨0, []⟩
    else
      let rows := dated.filterMap (fun rt =>
        match parseDecimal rt.1.PERIODID, parseDecimal rt.1.RRP with
        | some p, some rrp => some (normalizeRow rt.1 rt.2 p rrp)
        | _, _ => none)
      if rows = [] then ⟨0, []⟩
      else if writeRaises then ⟨0, []⟩
      else
        let sorted := sortRows rows
        ⟨sorted.length, sorted⟩

/-- Outcome of the HTTP fetch attempted by `download_file_fast`: a complete
response body, a stream that broke after some chunks were already written to
the destination file, or a request failure before the destination file was
opened. -/
inductive FetchOutcome where
  | success (bytes : List Nat)
  | failPartial (bytes : List Nat)
  | failEarly
deriving Repr, DecidableEq

/-- The per-file status string returned by `download_file_fast`
(`"exists"`, `"downloaded"`, `"failed"`). -/
inductive DownloadStatus where
  | alreadyPresent
  | downloaded
  | failed
deriving Repr, DecidableEq

/-- Fetch-and-write part of `download_file_fast` (the `try` body): on a
complete fetch the bytes are written to the destination, then a zero-size
result is removed and reported failed; a mid-stream exception leaves the
chunks already written on disk and reports failed; an early request
exception leaves the destination untouched and reports failed. -/
def attemptDownload (localFile : Option (List Nat)) (outcome : FetchOutcome) :
    Option (List Nat) × DownloadStatus :=
  match outcome with
  | .success bytes =>
    if 0 < bytes.length then (some bytes, .downloaded) else (none, .failed)
  | .failPartial bytes => (some bytes, .failed)
  | .failEarly => (localFile, .failed)

/-- Models `download_file_fast` of `scripts/TradingIS_price_imp.py`.
`localFile` is the current content of the destination path (if the file
exists).  A non-empty existing file short-circuits with status `exists`;
otherwise the fetch is attempted and the destination is (re)written. -/
def download_file_fast (localFile : Option (List Nat))
    (outcome : FetchOutcome) : Option (List Nat) × DownloadStatus :=
  match localFile with
  | some bytes =>
    if 0 < bytes.length then (some bytes, .alreadyPresent)
    else attemptDownload (some bytes) outcome
  | none => attemptDownload none outcome

/-- Per-candidate-file environment of one pipeline run: whether
`download_file_fast` ends with status `downloaded` or `exists` (as opposed
to `failed`), the rows of the report file inside the archive (empty for a
corrupt archive or a processing error), and whether the parquet append for
this file's batch raises. -/
structure FileEnv where
  downloadOk : Bool
  rows : List (List String)
  writeRaises : Bool

/-- Observable persistent-store events of a run, in execution order:
a completed `write_batch_to_parquet` call for a file's batch (with its
returned count), and an `INSERT OR IGNORE` of a filename into the
`processed_files_current` tracker table. -/
inductive Event where
  | writeAttempt (filename : String) (count : Nat)
  | trackerInsert (filename : String)
deriving Repr, DecidableEq

/-- Final state of one pipeline run: process exit code, tracker table
contents, partitioned-dataset contents, the ordered trace of store events,
and whether the end-of-run summary was reached. -/
structure RunResult where
  exitCode : Nat
  tracker : List String
  dataset : List NormalizedRecord
  trace : List Event
  summaryShown : Bool
deriving Repr, DecidableEq

/-- Models `link.split("/")[-1] if "/" in link else link`: the part of the
link after the last slash (the whole link when it has no slash). -/
def linkFilename (link : String) : String :=
  ⟨(link.data.reverse.takeWhile (fun c => c ≠ '/')).reverse⟩

/-- Phase 1 tail of the main program: candidates whose filename is not yet
in the tracker (`if filename not in existing_files`). -/
def newFilesOf (tracker0 recentLinks : List String) : List String :=
  recentLinks.filter (fun l => decide (linkFilename l ∉ tracker0))

/-- Phase 2 of the main program: the filenames whose
`download_file_fast` status is `downloaded` or `exists`, in task order. -/
def downloadedFilesOf (env : String → FileEnv) (newFiles : List String) :
    List String :=
  (newFiles.map linkFilename).filter (fun f => (env f).downloadOk)

/-- Phase 3 of the main program appends a filename to `processed_files`
exactly when `process_file_fast` returned a non-empty list for it (whether
or not the subsequent write succeeded or wrote any rows). -/
def processedFilesOf (env : String → FileEnv) (downloadedFiles : List String) :
    List String :=
  downloadedFiles.filter (fun f => decide (process_file_fast f (env f).rows ≠ []))

/-- The `write_batch_to_parquet` call Phase 3 makes for a processed file. -/
def writeFor (env : String → FileEnv) (f : String) : WriteResult :=
  write_batch_to_parquet (env f).writeRaises (process_file_fast f (env f).rows)

/-- Phase 4 of the main program: `INSERT OR IGNORE` of each processed
filename into the tracker table, in order (a duplicate key is ignored). -/
def trackerInsertAll (tracker0 processedFiles : List String) : List String :=
  processedFiles.foldl (fun t f => if f ∈ t then t else t ++ [f]) tracker0

/-- Models the phased main program of `scripts/TradingIS_price_imp.py`.

Inputs: `trackerOk` — the `duckdb.connect` succeeded (else `exit(1)`);
`tracker0` — the tracker table rows loaded into `existing_files`;
`dataset0` — the partitioned dataset contents before the run;
`allLinks` — the listing scraped by `debug_website_access` (empty both when
the fetch failed and when the page had no archive links; either way the run
exits 1); `recentLinks` — the output of `filter_recent_files(allLinks)`,
passed as data because it depends on the wall clock; `env` — the
per-filename download/archive/write environment.

Phases, as in the source: empty recent list exits 0; candidates already
tracked are removed before any download; an empty batch of successful
downloads exits 1; Phase 3 processes and writes per file in order; Phase 4
inserts the processed filenames into the tracker; then the end-of-run
summary prints. -/
def runPipeline (trackerOk : Bool) (tracker0 : List String)
    (dataset0 : List NormalizedRecord) (allLinks recentLinks : List String)
    (env : String → FileEnv) : RunResult :=
  if trackerOk then
    if allLinks = [] then ⟨1, tracker0, dataset0, [], false⟩
    else if recentLinks = [] then ⟨0, tracker0, dataset0, [], false⟩
    else
      let newFiles := newFilesOf tracker0 recentLinks
      if newFiles = [] then ⟨0, tracker0, dataset0, [], false⟩
      else
        let downloadedFiles := downloadedFilesOf env newFiles
        if downloadedFiles = [] then ⟨1, tracker0, dataset0, [], false⟩
        else
          let processedFiles := processedFilesOf env downloadedFiles
          let written := (processedFiles.map (fun f => (writeFor env f).rows)).flatten
          let trace3 := processedFiles.map (fun f => Event.writeAttempt f (writeFor env f).count)
          let trace4 := processedFiles.map Event.trackerInsert
          ⟨0, trackerInsertAll tracker0 processedFiles, dataset0 ++ written,
            trace3 ++ trace4, true⟩
  else ⟨1, tracker0, dataset0, [], false⟩

/-! Helper lemmas about the embedded definitions. -/

theorem mem_insertOne (t : List String) (f x : String) :
    x ∈ (if f ∈ t then t else t ++ [f]) ↔ x ∈ t ∨ x = f := by
  split
  case isTrue h =>
    constructor
    · exact fun hx => Or.inl hx
    · rintro (hx | rfl)
      · exact hx
      · exact h
  case isFalse h => simp [List.mem_append]

theorem mem_trackerInsertAll (fs t0 : List String) (x : String) :
    x ∈ trackerInsertAll t0 fs ↔ x ∈ t0 ∨ x ∈ fs := by
  induction fs generalizing t0 with
  | nil => simp [trackerInsertAll]
  | cons f fs ih =>
    have step : trackerInsertAll t0 (f :: fs) =
        trackerInsertAll (if f ∈ t0 then t0 else t0 ++ [f]) fs := rfl
    rw [step, ih, mem_insertOne]
    simp [List.mem_cons]
    tauto

theorem take3_ne_of_short {row : List String} (h : row.length < 3)
    (tag : List String) (htag : tag.length = 3) : row.take 3 ≠ tag := by
  intro heq
  have := congrArg List.length heq
  simp [List.length_take, htag] at this
  omega

/-- A row whose tag triple matches neither the header tag nor the data tag
leaves the scan state of `process_file_fast` unchanged. -/
theorem processRow_unmatched (filename : String) (acc : Bool × List RawRecord)
    (row : List String) (h1 : isInfoPriceRow row = false)
    (h2 : isDataPriceRow row = false) :
    processRow filename acc row = acc := by
  simp [processRow, h1, h2]

/-- The data row captured by one iteration of `process_file_fast` once the
header has been seen. -/
def captureRow (filename : String) (row : List String) : Option RawRecord :=
  if isDataPriceRow row = true ∧ 12 ≤ row.length then some (mkRaw filename row)
  else none

theorem processRow_true (filename : String) (data : List RawRecord)
    (row : List String) :
    processRow filename (true, data) row =
      (true, data ++ (captureRow filename row).toList) := by
  by_cases h3 : 3 ≤ row.length
  · by_cases hI : isInfoPriceRow row = true
    · have hD : isDataPriceRow row = false := by
        have h := of_decide_eq_true hI
        unfold isDataPriceRow
        rw [h]
        decide
      simp [processRow, captureRow, h3, hI, hD]
    · by_cases hD : isDataPriceRow row = true
      · by_cases h12 : 12 ≤ row.length
        · simp [processRow, captureRow, h3, hI, hD, h12]
        · simp [processRow, captureRow, h3, hI, hD, h12]
      · simp [processRow, captureRow, h3, hI, hD]
  · have hD : isDataPriceRow row = false := by
      unfold isDataPriceRow
      simp only [decide_eq_false_iff_not]
      exact take3_ne_of_short (by omega) _ rfl
    simp [processRow, captureRow, h3, hD]

theorem foldl_processRow_true (filename : String) (rows : List (List String))
    (data : List RawRecord) :
    rows.foldl (processRow filename) (true, data) =
      (true, data ++ rows.filterMap (captureRow filename)) := by
  induction rows generalizing data with
  | nil => simp
  | cons r rs ih =>
    rw [List.foldl_cons, processRow_true, ih]
    cases h : captureRow filename r <;>
      simp [List.filterMap_cons, h, List.append_assoc]

theorem length_filterMap_captureRow (filename : String)
    (rows : List (List String))
    (hlen : ∀ r ∈ rows, isDataPriceRow r = true → 12 ≤ r.length) :
    (rows.filterMap (captureRow filename)).length =
      rows.countP isDataPriceRow := by
  induction rows with
  | nil => rfl
  | cons r rs ih =>
    have hr := hlen r (List.mem_cons_self r rs)
    have ih' := ih (fun x hx h => hlen x (List.mem_cons_of_mem _ hx) h)
    by_cases hD : isDataPriceRow r = true
    · have h12 := hr hD
      simp [List.filterMap_cons, captureRow, hD, h12, List.countP_cons, ih']
    · simp [List.filterMap_cons, captureRow, hD, List.countP_cons, ih']

theorem mem_insertSorted (a b : NormalizedRecord)
    (l : List NormalizedRecord) :
    a ∈ insertSorted b l ↔ a = b ∨ a ∈ l := by
  induction l with
  | nil => simp [insertSorted]
  | cons c l ih =>
    unfold insertSorted
    split
    · simp [List.mem_cons]
    · simp only [List.mem_cons, ih]
      tauto

theorem mem_sortRows (a : NormalizedRecord) (l : List NormalizedRecord) :
    a ∈ sortRows l ↔ a ∈ l := by
  induction l with
  | nil => simp [sortRows]
  | cons b l ih =>
    have step : sortRows (b :: l) = insertSorted b (sortRows l) := rfl
    rw [step, mem_insertSorted, ih, List.mem_cons]

/-- The main-branch value of `runPipeline`: every guard passed, so the run
downloads, processes, writes, tracks and reaches the summary. -/
theorem runPipeline_main (tr0 : List String) (ds0 : List NormalizedRecord)
    (links recent : List String) (env : String → FileEnv)
    (h1 : links ≠ []) (h2 : recent ≠ [])
    (h3 : newFilesOf tr0 recent ≠ [])
    (h4 : downloadedFilesOf env (newFilesOf tr0 recent) ≠ []) :
    runPipeline true tr0 ds0 links recent env =
      ⟨0,
       trackerInsertAll tr0
         (processedFilesOf env (downloadedFilesOf env (newFilesOf tr0 recent))),
       ds0 ++ ((processedFilesOf env (downloadedFilesOf env (newFilesOf tr0 recent))).map
         (fun f => (writeFor env f).rows)).flatten,
       (processedFilesOf env (downloadedFilesOf env (newFilesOf tr0 recent))).map
         (fun f => Event.writeAttempt f (writeFor env f).count) ++
       (processedFilesOf env (downloadedFilesOf env (newFilesOf tr0 recent))).map
         Event.trackerInsert,
       true⟩ := by
  simp only [runPipeline, if_true, if_neg h1, if_neg h2, if_neg h3, if_neg h4]

/-- The early-exit value of `runPipeline` when every recent candidate is
already tracked: exit 0 with nothing touched. -/
theorem runPipeline_no_new (tr0 : List String) (ds0 : List NormalizedRecord)
    (links recent : List String) (env : String → FileEnv)
    (h1 : links ≠ []) (h2 : recent ≠ [])
    (h3 : newFilesOf tr0 recent = []) :
    runPipeline true tr0 ds0 links recent env = ⟨0, tr0, ds0, [], false⟩ := by
  simp only [runPipeline, if_true, if_neg h1, if_neg h2, h3, if_pos rfl]

/-- The early-exit value of `runPipeline` on an empty recent list. -/
theorem runPipeline_empty_recent (tr0 : List String)
    (ds0 : List NormalizedRecord) (links : List String)
    (env : String → FileEnv) (h1 : links ≠ []) :
    runPipeline true tr0 ds0 links [] env = ⟨0, tr0, ds0, [], false⟩ := by
  simp only [runPipeline, if_true, if_neg h1, if_pos rfl]

/-- A run either takes one of the four early exits, which leave the tracker
and dataset untouched and emit no store events, or every guard passed and
the run reaches the main phase. -/
theorem runPipeline_cases (tr0 : List String) (ds0 : List NormalizedRecord)
    (links recent : List String) (env : String → FileEnv) :
    (∃ c b, runPipeline true tr0 ds0 links recent env = ⟨c, tr0, ds0, [], b⟩) ∨
    (links ≠ [] ∧ recent ≠ [] ∧ newFilesOf tr0 recent ≠ [] ∧
      downloadedFilesOf env (newFilesOf tr0 recent) ≠ []) := by
  by_cases h1 : links = []
  · exact Or.inl ⟨1, false, by simp [runPipeline, h1]⟩
  · by_cases h2 : recent = []
    · exact Or.inl ⟨0, false, by simp [runPipeline, h1, h2]⟩
    · by_cases h3 : newFilesOf tr0 recent = []
      · exact Or.inl ⟨0, false, by simp [runPipeline, h1, h2, h3]⟩
      · by_cases h4 : downloadedFilesOf env (newFilesOf tr0 recent) = []
        · exact Or.inl ⟨1, false, by simp [runPipeline, h1, h2, h3, h4]⟩
        · exact Or.inr ⟨h1, h2, h3, h4⟩

/-! Claim theorems. -/

/-- Claim C3: the derived interval index is computed from minutes since
midnight at fixed 5-minute granularity with 1-indexing (`5k` minutes past
midnight is interval `k`), the exact-midnight instant maps to 288 (the final
interval of the previous day), `00:05:00` maps to 1 and `18:35:00` maps to
223, and the vectorized PERIODID computation of `process_csv_file` agrees
with `calculate_period_id` at every time of day. -/
theorem periodid_five_minute_indexing :
    calculate_period_id 0 0 = 288 ∧
    calculate_period_id 0 5 = 1 ∧
    calculate_period_id 18 35 = 223 ∧
    (∀ k : Nat, 1 ≤ k → k ≤ 287 →
      calculate_period_id (5 * k / 60) (5 * k % 60) = k) ∧
    (∀ hour minute : Nat,
      periodid_vectorized hour minute = (calculate_period_id hour minute : Int)) := by
  refine ⟨by decide, by decide, by decide, ?_, ?_⟩
  · intro k h1 h2
    simp only [calculate_period_id]
    split <;> omega
  · intro hour minute
    simp only [periodid_vectorized, calculate_period_id]
    rw [Int.fdiv_eq_ediv _ (by norm_num)]
    split_ifs with h1 h2 h3 <;> omega

/-- Witness for C3: interval 223 is reached at `5 * 223 = 1115` minutes
past midnight, which is 18:35, where both computations give 223. -/
theorem periodid_five_minute_indexing_witness :
    calculate_period_id (5 * 223 / 60) (5 * 223 % 60) = 223 ∧
    periodid_vectorized 18 35 = (calculate_period_id 18 35 : Int) :=
  ⟨periodid_five_minute_indexing.2.2.2.1 223 (by decide) (by decide),
   periodid_five_minute_indexing.2.2.2.2 18 35⟩

/-- Claim C10: if the batch still has rows after the settlement-date filter
and any remaining row's PERIODID fails numeric coercion, then the
`astype("int16")` raises, the `except` returns 0, and none of the batch's
rows are written — the whole batch is discarded, not only the offending
row. -/
theorem null_periodid_discards_whole_batch (writeRaises : Bool)
    (batch : List RawRecord) (h1 : datedRows batch ≠ [])
    (h2 : ∃ rt ∈ datedRows batch, (parseDecimal rt.1.PERIODID).isNone = true) :
    write_batch_to_parquet writeRaises batch = ⟨0, []⟩ := by
  have hb : batch ≠ [] := by
    intro h
    apply h1
    rw [h]
    rfl
  have hany : ((datedRows batch).any
      (fun rt => (parseDecimal rt.1.PERIODID).isNone)) = true :=
    List.any_eq_true.mpr h2
  simp only [write_batch_to_parquet, if_neg hb, if_neg h1, hany, if_true]

/-- Witness for C10: a two-row batch with parseable settlement dates in
which the second row's PERIODID is `"N/A"` is discarded entirely — the
valid first row is not written either. -/
theorem null_periodid_discards_whole_batch_witness :
    write_batch_to_parquet false
      [⟨"2024/06/09 04:05:00", "R1", "1", "85.5", "t1", "A.zip"⟩,
       ⟨"2024/06/09 04:10:00", "R1", "N/A", "90.1", "t2", "A.zip"⟩] = ⟨0, []⟩ :=
  null_periodid_discards_whole_batch false _ (by decide) (by decide)

/-- Counterexample for C8: a fetch that breaks mid-stream leaves a
non-empty partial file on disk and reports `failed`; the next
`download_file_fast` call for the same filename sees a non-empty local copy
and reports `exists`, so the partial download is subsequently treated as a
complete one — the write is not atomic. -/
theorem partial_download_later_treated_complete :
    download_file_fast none (.failPartial [7]) = (some [7], .failed) ∧
    download_file_fast (some [7]) .failEarly = (some [7], .alreadyPresent) := by
  decide

/-- Amended C8: the Download Manager does skip the fetch when a non-empty
local copy exists, and a `downloaded` status is only reported for a
complete non-empty fetched body (a zero-byte result is removed and reported
failed); but the write is direct rather than atomic, so a failed fetch can
leave a partial file that later calls treat as already present. -/
theorem download_skip_and_download_complete :
    (∀ (bytes : List Nat) (outcome : FetchOutcome), bytes ≠ [] →
      download_file_fast (some bytes) outcome = (some bytes, .alreadyPresent)) ∧
    (∀ (localFile : Option (List Nat)) (outcome : FetchOutcome),
      (download_file_fast localFile outcome).2 = .downloaded →
      ∃ bytes, outcome = .success bytes ∧ bytes ≠ [] ∧
        (download_file_fast localFile outcome).1 = some bytes) := by
  constructor
  · intro bytes outcome hne
    have hpos : 0 < bytes.length := List.length_pos.mpr hne
    simp [download_file_fast, hpos]
  · intro localFile outcome h
    have hmain : ∀ lf : Option (List Nat),
        (attemptDownload lf outcome).2 = DownloadStatus.downloaded →
        ∃ bytes, outcome = .success bytes ∧ bytes ≠ [] ∧
          (attemptDownload lf outcome).1 = some bytes := by
      intro lf hlf
      cases outcome with
      | success bytes =>
        by_cases hc : 0 < bytes.length
        · exact ⟨bytes, rfl, List.length_pos.mp hc, by simp [attemptDownload, hc]⟩
        · simp [attemptDownload, hc] at hlf
      | failPartial bytes => simp [attemptDownload] at hlf
      | failEarly => simp [attemptDownload] at hlf
    cases localFile with
    | none => exact hmain none h
    | some bs =>
      by_cases hb : 0 < bs.length
      · simp [download_file_fast, hb] at h
      · have h' : (attemptDownload (some bs) outcome).2 = .downloaded := by
          simpa [download_file_fast, hb] using h
        have := hmain (some bs) h'
        simpa [download_file_fast, hb] using this

/-- Witness for C8's amended theorem: a non-empty cached file short-circuits
the fetch, and a successful non-empty fetch yields `downloaded` with the
full body on disk. -/
theorem download_skip_and_download_complete_witness :
    download_file_fast (some [7]) (.success [9]) = (some [7], .alreadyPresent) ∧
    (∃ bytes, FetchOutcome.success [9] = .success bytes ∧ bytes ≠ [] ∧
      (download_file_fast none (.success [9])).1 = some bytes) :=
  ⟨download_skip_and_download_complete.1 [7] (.success [9]) (by decide),
   download_skip_and_download_complete.2 none (.success [9]) (by decide)⟩

/-- Counterexample for C7: with the tracker store opening successfully and
the listing non-empty, a run in which the single candidate's download fails
terminates with exit code 1 and never reaches the end-of-run summary —
a per-file download failure is fatal, contradicting the claim that only
listing or tracker unavailability aborts the run. -/
theorem download_failures_cause_fatal_exit :
    (runPipeline true [] [] ["C.zip"] ["C.zip"]
      (fun _ => ⟨false, [], false⟩)).exitCode = 1 ∧
    (runPipeline true [] [] ["C.zip"] ["C.zip"]
      (fun _ => ⟨false, [], false⟩)).summaryShown = false := by
  decide

/-- Amended C7: the run terminates with a non-zero exit code exactly when
the tracker store cannot be opened, when the listing yields no archive
links (covering both a failed fetch and an empty page), or when there was
a non-empty batch of new candidate files and every one of their downloads
failed.  In every other case — including any number of per-file parse or
write failures — the run exits 0. -/
theorem fatal_exit_characterization (trackerOk : Bool) (tr0 : List String)
    (ds0 : List NormalizedRecord) (links recent : List String)
    (env : String → FileEnv) :
    (runPipeline trackerOk tr0 ds0 links recent env).exitCode = 1 ↔
      (trackerOk = false ∨ links = [] ∨
        (recent ≠ [] ∧ newFilesOf tr0 recent ≠ [] ∧
          downloadedFilesOf env (newFilesOf tr0 recent) = [])) := by
  cases trackerOk with
  | false => simp [runPipeline]
  | true =>
    by_cases h1 : links = []
    · simp [runPipeline, h1]
    · by_cases h2 : recent = []
      · simp [runPipeline, h1, h2]
      · by_cases h3 : newFilesOf tr0 recent = []
        · simp [runPipeline, h1, h2, h3]
        · by_cases h4 : downloadedFilesOf env (newFilesOf tr0 recent) = []
          · simp [runPipeline, h1, h2, h3, h4]
          · simp [runPipeline, h1, h2, h3, h4]

/-- Counterexample for C5: a batch whose single row has a parseable
settlement date and PERIODID but RRP `"N/A"` produces zero written rows —
the coercion yields null without an exception, but the row is then dropped
by `dropna(subset=['RRP', 'PERIODID'])` rather than retained. -/
theorem na_rrp_row_not_retained :
    (parseTimestamp "2024/06/09 04:05:00").isSome = true ∧
    (parseDecimal "1").isSome = true ∧
    parseDecimal "N/A" = none ∧
    write_batch_to_parquet false
      [⟨"2024/06/09 04:05:00", "R1", "1", "N/A", "t1", "A.zip"⟩] = ⟨0, []⟩ := by
  decide

/-- Amended C5: numeric coercion of `"N/A"` or the empty string yields null
without an exception, but rows whose RRP coerced to null are removed before
the write (and a null PERIODID discards the whole batch), so no row written
to the dataset ever carries a null RRP. -/
theorem numeric_null_rows_never_written :
    parseDecimal "N/A" = none ∧ parseDecimal "" = none ∧
    (∀ (writeRaises : Bool) (batch : List RawRecord) (r : NormalizedRecord),
      r ∈ (write_batch_to_parquet writeRaises batch).rows →
      r.RRP.isSome = true) := by
  refine ⟨by decide, by decide, ?_⟩
  intro w batch r hr
  simp only [write_batch_to_parquet] at hr
  split at hr
  · simp at hr
  · split at hr
    · simp at hr
    · split at hr
      · simp at hr
      · split at hr
        · simp at hr
        · split at hr
          · simp at hr
          · simp only [mem_sortRows] at hr
            rcases List.mem_filterMap.mp hr with ⟨rt, hmem, heq⟩
            cases hp : parseDecimal rt.1.PERIODID with
            | none => rw [hp] at heq; simp at heq
            | some p =>
              cases hrr : parseDecimal rt.1.RRP with
              | none => rw [hp, hrr] at heq; simp at heq
              | some rrp =>
                rw [hp, hrr] at heq
                simp only [Option.some_inj] at heq
                rw [← heq]
                rfl

/-- Witness for C5's amended theorem: the row written for a fully valid raw
row carries a non-null RRP. -/
theorem numeric_null_rows_never_written_witness :
    (⟨⟨2024, 6, 9, 4, 5, 0⟩, "R1", 1, some ⟨false, 85, [5]⟩, "t1", 2024, 6⟩ :
      NormalizedRecord).RRP.isSome = true :=
  numeric_null_rows_never_written.2.2 false
    [⟨"2024/06/09 04:05:00", "R1", "1", "85.5", "t1", "A.zip"⟩]
    ⟨⟨2024, 6, 9, 4, 5, 0⟩, "R1", 1, some ⟨false, 85, [5]⟩, "t1", 2024, 6⟩
    (by decide)

/-- Counterexample for C6: a file with the PRICE header and one
target-tagged data row of only 11 fields (whose timestamp field would parse
fine) delivers zero records to the writer: the `len(row) >= 12` guard drops
the row silently and no dropped-row count exists, contradicting
"exactly N except unparseable timestamps, explicitly counted". -/
theorem short_tagged_row_silently_dropped :
    List.countP isDataPriceRow
      [["D", "TRADING", "PRICE", "1", "2024/06/09 04:05:00", "x", "R1", "1",
        "85.5", "x", "x"]] = 1 ∧
    (parseTimestamp "2024/06/09 04:05:00").isSome = true ∧
    process_file_fast "A.zip"
      [["I", "TRADING", "PRICE", "1", "SETTLEMENTDATE"],
       ["D", "TRADING", "PRICE", "1", "2024/06/09 04:05:00", "x", "R1", "1",
        "85.5", "x", "x"]] = [] := by
  decide

/-- Amended C6: for a file consisting of a PRICE header row followed by the
data rows, the writer receives exactly the rows tagged for the target
dataset that carry at least 12 fields; in particular it receives exactly N
records whenever every tagged row is at least 12 fields wide.  Rows dropped
by the width guard (and later by the writer's timestamp and numeric
filters) are not counted anywhere. -/
theorem writer_receives_exactly_long_tagged_rows (filename : String)
    (hdr : List String) (rest : List (List String))
    (hhdr : isInfoPriceRow hdr = true)
    (hlen : ∀ r ∈ rest, isDataPriceRow r = true → 12 ≤ r.length) :
    (process_file_fast filename (hdr :: rest)).length =
      rest.countP isDataPriceRow := by
  unfold process_file_fast
  rw [List.foldl_cons]
  have h3 : 3 ≤ hdr.length := by
    have h := of_decide_eq_true hhdr
    have hl := congrArg List.length h
    simp [List.length_take] at hl
    omega
  have hstep : processRow filename (false, []) hdr = (true, []) := by
    simp [processRow, h3, hhdr]
  rw [hstep, foldl_processRow_true]
  simpa using length_filterMap_captureRow filename rest hlen

/-- Witness for C6's amended theorem: a header plus one 12-field tagged row
delivers exactly one record. -/
theorem writer_receives_exactly_long_tagged_rows_witness :
    (process_file_fast "A.zip"
      [["I", "TRADING", "PRICE", "1", "SETTLEMENTDATE"],
       ["D", "TRADING", "PRICE", "1", "2024/06/09 04:05:00", "x", "R1", "1",
        "85.5", "x", "x", "t1"]]).length =
      List.countP isDataPriceRow
        [["D", "TRADING", "PRICE", "1", "2024/06/09 04:05:00", "x", "R1", "1",
          "85.5", "x", "x", "t1"]] :=
  writer_receives_exactly_long_tagged_rows "A.zip"
    ["I", "TRADING", "PRICE", "1", "SETTLEMENTDATE"]
    [["D", "TRADING", "PRICE", "1", "2024/06/09 04:05:00", "x", "R1", "1",
      "85.5", "x", "x", "t1"]]
    (by decide) (by decide)

/-- Claim C9: a row whose tag triple matches no registered dataset is
ignored without an error (removing it from a file leaves the parse result
unchanged), and a downloaded file that yields zero data rows for the target
dataset is skipped — it is not tracked — while the run still completes with
exit code 0 and reaches the end-of-run summary. -/
theorem unmatched_rows_ignored_empty_file_skipped :
    (∀ (filename : String) (pre post : List (List String)) (row : List String),
      isInfoPriceRow row = false → isDataPriceRow row = false →
      process_file_fast filename (pre ++ row :: post) =
        process_file_fast filename (pre ++ post)) ∧
    (∀ (tr0 : List String) (ds0 : List NormalizedRecord)
        (links recent : List String) (env : String → FileEnv) (l f : String),
      links ≠ [] → l ∈ recent → linkFilename l = f → f ∉ tr0 →
      (env f).downloadOk = true → process_file_fast f (env f).rows = [] →
      (runPipeline true tr0 ds0 links recent env).exitCode = 0 ∧
      (runPipeline true tr0 ds0 links recent env).summaryShown = true ∧
      f ∉ (runPipeline true tr0 ds0 links recent env).tracker) := by
  constructor
  · intro filename pre post row hI hD
    unfold process_file_fast
    rw [List.foldl_append, List.foldl_cons,
      processRow_unmatched filename _ row hI hD, ← List.foldl_append]
  · intro tr0 ds0 links recent env l f h1 hl hlf hf hdl hemp
    have h2 : recent ≠ [] := by
      intro h
      rw [h] at hl
      cases hl
    have hmemNew : l ∈ newFilesOf tr0 recent := by
      unfold newFilesOf
      rw [List.mem_filter]
      refine ⟨hl, ?_⟩
      rw [hlf]
      exact decide_eq_true hf
    have h3 : newFilesOf tr0 recent ≠ [] := by
      intro h
      rw [h] at hmemNew
      cases hmemNew
    have hmemDl : f ∈ downloadedFilesOf env (newFilesOf tr0 recent) := by
      unfold downloadedFilesOf
      rw [List.mem_filter]
      exact ⟨List.mem_map.mpr ⟨l, hmemNew, hlf⟩, hdl⟩
    have h4 : downloadedFilesOf env (newFilesOf tr0 recent) ≠ [] := by
      intro h
      rw [h] at hmemDl
      cases hmemDl
    rw [runPipeline_main tr0 ds0 links recent env h1 h2 h3 h4]
    refine ⟨rfl, rfl, ?_⟩
    intro hmem
    have hmem' : f ∈ trackerInsertAll tr0
        (processedFilesOf env (downloadedFilesOf env (newFilesOf tr0 recent))) := hmem
    rcases (mem_trackerInsertAll _ _ _).mp hmem' with hmem'' | hmem''
    · exact hf hmem''
    · unfold processedFilesOf at hmem''
      rw [List.mem_filter] at hmem''
      exact (of_decide_eq_true hmem''.2) hemp

/-- Witness for C9: removing an unrelated `C,SCADA,...` comment-class row
changes nothing, and a run over a file holding only unrelated rows exits 0
with the file left untracked. -/
theorem unmatched_rows_ignored_empty_file_skipped_witness :
    process_file_fast "E.zip"
      ([["I", "TRADING", "PRICE", "1"]] ++
        ["C", "SCADA", "X", "1"] :: [["D", "TRADING", "PRICE", "1",
          "2024/06/09 04:05:00", "x", "R1", "1", "85.5", "x", "x", "t1"]]) =
      process_file_fast "E.zip"
        ([["I", "TRADING", "PRICE", "1"]] ++ [["D", "TRADING", "PRICE", "1",
          "2024/06/09 04:05:00", "x", "R1", "1", "85.5", "x", "x", "t1"]]) ∧
    ((runPipeline true [] [] ["E.zip"] ["E.zip"]
        (fun _ => ⟨true, [["C", "SCADA", "X", "1"]], false⟩)).exitCode = 0 ∧
      (runPipeline true [] [] ["E.zip"] ["E.zip"]
        (fun _ => ⟨true, [["C", "SCADA", "X", "1"]], false⟩)).summaryShown = true ∧
      "E.zip" ∉ (runPipeline true [] [] ["E.zip"] ["E.zip"]
        (fun _ => ⟨true, [["C", "SCADA", "X", "1"]], false⟩)).tracker) :=
  ⟨unmatched_rows_ignored_empty_file_skipped.1 "E.zip"
      [["I", "TRADING", "PRICE", "1"]] _ ["C", "SCADA", "X", "1"]
      (by decide) (by decide),
   unmatched_rows_ignored_empty_file_skipped.2 [] [] ["E.zip"] ["E.zip"]
      (fun _ => ⟨true, [["C", "SCADA", "X", "1"]], false⟩) "E.zip" "E.zip"
      (by decide) (by decide) (by decide) (by decide) (by decide) (by decide)⟩

/-- Claim C2: after a first run against a listing in which every recent
candidate downloaded and parsed successfully, every candidate's filename is
in the tracker; a second run against the unchanged listing (whatever the
remote then serves) removes every candidate before download via the
tracker-membership check and the idempotent insert, and ends in the
"no new files" exit with the tracker contents and the dataset (hence its
total row count) unchanged. -/
theorem second_run_leaves_state_unchanged (tr0 : List String)
    (ds0 : List NormalizedRecord) (links recent : List String)
    (env env2 : String → FileEnv) (hlinks : links ≠ [])
    (hok : ∀ l ∈ recent, (env (linkFilename l)).downloadOk = true ∧
      process_file_fast (linkFilename l) (env (linkFilename l)).rows ≠ []) :
    (∀ l ∈ recent,
      linkFilename l ∈ (runPipeline true tr0 ds0 links recent env).tracker) ∧
    runPipeline true (runPipeline true tr0 ds0 links recent env).tracker
        (runPipeline true tr0 ds0 links recent env).dataset links recent env2 =
      ⟨0, (runPipeline true tr0 ds0 links recent env).tracker,
          (runPipeline true tr0 ds0 links recent env).dataset, [], false⟩ := by
  by_cases h2 : recent = []
  · subst h2
    refine ⟨by simp, ?_⟩
    rw [runPipeline_empty_recent tr0 ds0 links env hlinks]
    exact runPipeline_empty_recent _ _ _ _ hlinks
  · by_cases h3 : newFilesOf tr0 recent = []
    · have hR1 : runPipeline true tr0 ds0 links recent env = ⟨0, tr0, ds0, [], false⟩ :=
        runPipeline_no_new _ _ _ _ _ hlinks h2 h3
      have hmem : ∀ l ∈ recent, linkFilename l ∈ tr0 := by
        intro l hl
        have h := (List.filter_eq_nil_iff.mp h3) l hl
        simpa using h
      refine ⟨?_, ?_⟩
      · intro l hl
        rw [hR1]
        exact hmem l hl
      · rw [hR1]
        exact runPipeline_no_new _ _ _ _ _ hlinks h2 h3
    · have hsubNew : ∀ l ∈ newFilesOf tr0 recent, l ∈ recent :=
        fun l hl => (List.mem_filter.mp hl).1
      have hdl : downloadedFilesOf env (newFilesOf tr0 recent) =
          (newFilesOf tr0 recent).map linkFilename := by
        unfold downloadedFilesOf
        rw [List.filter_eq_self]
        intro f hf
        rcases List.mem_map.mp hf with ⟨l, hl, rfl⟩
        exact (hok l (hsubNew l hl)).1
      have hpr : processedFilesOf env (downloadedFilesOf env (newFilesOf tr0 recent)) =
          (newFilesOf tr0 recent).map linkFilename := by
        unfold processedFilesOf
        rw [hdl, List.filter_eq_self]
        intro f hf
        rcases List.mem_map.mp hf with ⟨l, hl, rfl⟩
        exact decide_eq_true (hok l (hsubNew l hl)).2
      have h4 : downloadedFilesOf env (newFilesOf tr0 recent) ≠ [] := by
        rw [hdl]
        intro h
        exact h3 (List.map_eq_nil_iff.mp h)
      have hmain := runPipeline_main tr0 ds0 links recent env hlinks h2 h3 h4
      have htr : ∀ l ∈ recent,
          linkFilename l ∈ (runPipeline true tr0 ds0 links recent env).tracker := by
        intro l hl
        rw [hmain]
        show linkFilename l ∈ trackerInsertAll tr0 _
        rw [mem_trackerInsertAll]
        by_cases hmem : linkFilename l ∈ tr0
        · exact Or.inl hmem
        · right
          rw [hpr]
          exact List.mem_map.mpr
            ⟨l, List.mem_filter.mpr ⟨hl, decide_eq_true hmem⟩, rfl⟩
      refine ⟨htr, ?_⟩
      have hnew2 : newFilesOf
          (runPipeline true tr0 ds0 links recent env).tracker recent = [] := by
        unfold newFilesOf
        rw [List.filter_eq_nil_iff]
        intro l hl
        simpa using htr l hl
      exact runPipeline_no_new _ _ _ _ _ hlinks h2 hnew2

/-- Witness for C2: a concrete successful first run over one candidate,
after which the second run (against a remote that now serves nothing)
changes neither tracker nor dataset. -/
theorem second_run_leaves_state_unchanged_witness :
    runPipeline true
      (runPipeline true [] [] ["A.zip"] ["A.zip"]
        (fun _ => ⟨true,
          [["I", "TRADING", "PRICE", "1", "SETTLEMENTDATE"],
           ["D", "TRADING", "PRICE", "1", "2024/06/09 04:05:00", "x", "R1", "1",
            "85.5", "x", "x", "t1"]], false⟩)).tracker
      (runPipeline true [] [] ["A.zip"] ["A.zip"]
        (fun _ => ⟨true,
          [["I", "TRADING", "PRICE", "1", "SETTLEMENTDATE"],
           ["D", "TRADING", "PRICE", "1", "2024/06/09 04:05:00", "x", "R1", "1",
            "85.5", "x", "x", "t1"]], false⟩)).dataset
      ["A.zip"] ["A.zip"] (fun _ => ⟨false, [], false⟩) =
    ⟨0,
     (runPipeline true [] [] ["A.zip"] ["A.zip"]
        (fun _ => ⟨true,
          [["I", "TRADING", "PRICE", "1", "SETTLEMENTDATE"],
           ["D", "TRADING", "PRICE", "1", "2024/06/09 04:05:00", "x", "R1", "1",
            "85.5", "x", "x", "t1"]], false⟩)).tracker,
     (runPipeline true [] [] ["A.zip"] ["A.zip"]
        (fun _ => ⟨true,
          [["I", "TRADING", "PRICE", "1", "SETTLEMENTDATE"],
           ["D", "TRADING", "PRICE", "1", "2024/06/09 04:05:00", "x", "R1", "1",
            "85.5", "x", "x", "t1"]], false⟩)).dataset, [], false⟩ :=
  (second_run_leaves_state_unchanged [] [] ["A.zip"] ["A.zip"]
    (fun _ => ⟨true,
      [["I", "TRADING", "PRICE", "1", "SETTLEMENTDATE"],
       ["D", "TRADING", "PRICE", "1", "2024/06/09 04:05:00", "x", "R1", "1",
        "85.5", "x", "x", "t1"]], false⟩)
    (fun _ => ⟨false, [], false⟩) (by decide) (by decide)).2

/-- Counterexample for C1: a run whose single file downloads and parses
(one data row) but whose settlement date fails to parse writes zero rows —
the dataset stays empty — yet the filename is inserted into the tracker, so
tracker presence does not imply the file's data was ever durably written. -/
theorem tracked_file_with_no_written_rows :
    "A.zip" ∈ (runPipeline true [] [] ["A.zip"] ["A.zip"]
      (fun f => if f = "A.zip" then
          ⟨true,
           [["I", "TRADING", "PRICE", "1", "SETTLEMENTDATE"],
            ["D", "TRADING", "PRICE", "1", "bad-date", "x", "R1", "1", "85.5",
             "x", "x", "t1"]], false⟩
        else ⟨false, [], false⟩)).tracker ∧
    (runPipeline true [] [] ["A.zip"] ["A.zip"]
      (fun f => if f = "A.zip" then
          ⟨true,
           [["I", "TRADING", "PRICE", "1", "SETTLEMENTDATE"],
            ["D", "TRADING", "PRICE", "1", "bad-date", "x", "R1", "1", "85.5",
             "x", "x", "t1"]], false⟩
        else ⟨false, [], false⟩)).dataset = [] := by
  decide

/-- Amended C1: the ordering half of the claim holds — the run's trace is a
block of completed write attempts followed by a block of tracker inserts,
and a filename present in the tracker afterwards was either already tracked
or had its batch write attempt complete (appearing in the trace) before the
insert.  Presence does not imply rows were durably written: a failed or
empty write still leads to tracking. -/
theorem tracker_inserts_follow_write_attempts (tr0 : List String)
    (ds0 : List NormalizedRecord) (links recent : List String)
    (env : String → FileEnv) :
    (∃ A B, (runPipeline true tr0 ds0 links recent env).trace = A ++ B ∧
      (∀ e ∈ A, ∃ f n, e = Event.writeAttempt f n) ∧
      (∀ e ∈ B, ∃ f, e = Event.trackerInsert f)) ∧
    (∀ f, f ∈ (runPipeline true tr0 ds0 links recent env).tracker →
      f ∈ tr0 ∨
        Event.writeAttempt f (writeFor env f).count ∈
          (runPipeline true tr0 ds0 links recent env).trace) := by
  rcases runPipeline_cases tr0 ds0 links recent env with ⟨c, b, hR⟩ | ⟨h1, h2, h3, h4⟩
  · rw [hR]
    exact ⟨⟨[], [], rfl, by simp, by simp⟩, fun f hf => Or.inl hf⟩
  · rw [runPipeline_main tr0 ds0 links recent env h1 h2 h3 h4]
    refine ⟨⟨_, _, rfl, ?_, ?_⟩, ?_⟩
    · intro e he
      rcases List.mem_map.mp he with ⟨g, hg, rfl⟩
      exact ⟨g, (writeFor env g).count, rfl⟩
    · intro e he
      rcases List.mem_map.mp he with ⟨g, hg, rfl⟩
      exact ⟨g, rfl⟩
    · intro f hf
      have hf' : f ∈ trackerInsertAll tr0
          (processedFilesOf env (downloadedFilesOf env (newFilesOf tr0 recent))) := hf
      rcases (mem_trackerInsertAll _ _ _).mp hf' with h | h
      · exact Or.inl h
      · right
        exact List.mem_append_left _ (List.mem_map.mpr ⟨f, h, rfl⟩)

/-- Witness for C1's amended theorem: in a concrete successful run the
tracked file's completed write attempt appears in the trace. -/
theorem tracker_inserts_follow_write_attempts_witness :
    "W.zip" ∈ ([] : List String) ∨
      Event.writeAttempt "W.zip"
        (writeFor (fun _ => ⟨true,
          [["I", "TRADING", "PRICE", "1", "SETTLEMENTDATE"],
           ["D", "TRADING", "PRICE", "1", "2024/06/09 04:05:00", "x", "R1", "1",
            "85.5", "x", "x", "t1"]], false⟩) "W.zip").count ∈
        (runPipeline true [] [] ["W.zip"] ["W.zip"]
          (fun _ => ⟨true,
            [["I", "TRADING", "PRICE", "1", "SETTLEMENTDATE"],
             ["D", "TRADING", "PRICE", "1", "2024/06/09 04:05:00", "x", "R1", "1",
              "85.5", "x", "x", "t1"]], false⟩)).trace :=
  (tracker_inserts_follow_write_attempts [] [] ["W.zip"] ["W.zip"]
    (fun _ => ⟨true,
      [["I", "TRADING", "PRICE", "1", "SETTLEMENTDATE"],
       ["D", "TRADING", "PRICE", "1", "2024/06/09 04:05:00", "x", "R1", "1",
        "85.5", "x", "x", "t1"]], false⟩)).2 "W.zip" (by decide)

/-- Claim C4 (code bug): a file whose batch write fails gets the zero
return from the writer, yet the main program appends it to
`processed_files` in Phase 3 (membership there only requires a non-empty
parse) and Phase 4 inserts it into the tracker, so the file is NOT left
untracked and is NOT retried on the next run.  The conjuncts evaluate the
model at the failing input: the parse yields a writable row (count 1
without the failure), the failed write returns 0 and writes nothing, and
the filename nevertheless ends up in the tracker. -/
theorem write_failure_file_still_tracked :
    (write_batch_to_parquet false
      (process_file_fast "B.zip"
        [["I", "TRADING", "PRICE", "1", "SETTLEMENTDATE"],
         ["D", "TRADING", "PRICE", "1", "2024/06/09 04:05:00", "x", "R1", "1",
          "85.5", "x", "x", "t1"]])).count = 1 ∧
    write_batch_to_parquet true
      (process_file_fast "B.zip"
        [["I", "TRADING", "PRICE", "1", "SETTLEMENTDATE"],
         ["D", "TRADING", "PRICE", "1", "2024/06/09 04:05:00", "x", "R1", "1",
          "85.5", "x", "x", "t1"]]) = ⟨0, []⟩ ∧
    "B.zip" ∈ (runPipeline true [] [] ["B.zip"] ["B.zip"]
      (fun f => if f = "B.zip" then
          ⟨true,
           [["I", "TRADING", "PRICE", "1", "SETTLEMENTDATE"],
            ["D", "TRADING", "PRICE", "1", "2024/06/09 04:05:00", "x", "R1", "1",
             "85.5", "x", "x", "t1"]], true⟩
        else ⟨false, [], false⟩)).tracker ∧
    (runPipeline true [] [] ["B.zip"] ["B.zip"]
      (fun f => if f = "B.zip" then
          ⟨true,
           [["I", "TRADING", "PRICE", "1", "SETTLEMENTDATE"],
            ["D", "TRADING", "PRICE", "1", "2024/06/09 04:05:00", "x", "R1", "1",
             "85.5", "x", "x", "t1"]], true⟩
        else ⟨false, [], false⟩)).dataset = [] := by
  decide

end NEMData
